import Mathlib

/-!
Verification of the record-synchronization logic of a personal
book-tracking utility (`code/data_management.py`).

The program keeps two tables persisted as CSV files:
  * a books catalog (`books.csv`) with columns
    Title, Author, Author FN, Author MN, Author LN, Length, Times Read,
    Rating, Genre;
  * a reading log (`reading.csv`) with columns
    Title, Start, Finish, Reading Time, Rating.

The embedding below models:
  * catalog cells as a dynamic value type `CellVal` (pandas cells are
    dynamically typed: strings from `input()`, ints, floats, or NaN);
  * reading-log rows with typed fields (`Option` encodes NaN/NaT);
  * the reading log as a list of (label, row) pairs, because pandas
    addresses rows by index label (`.loc`, `.drop`): a freshly loaded
    frame has labels 0..n-1, `.loc[label, col] = v` on an absent label
    enlarges the frame, and `.drop(label)` raises `KeyError` on an
    absent label (modelled as `Option`);
  * dates as integer day numbers, so `(finish - start).days` is
    `finish - start`;
  * floats as rationals, with Python `round(x, 1)` modelled as exact
    round-half-to-even at one decimal;
  * interactive `input()` prompts as explicit parameters;
  * each on-disk `books.csv` read/write as threading a `BooksDB` value.
-/

namespace PhoebeShelves

/-- A dynamically typed pandas cell: a string, an integer, a float
(modelled as a rational), or missing (NaN/NaT). -/
inductive CellVal where
  | str (s : String)
  | int (n : Int)
  | rat (q : ℚ)
  | na
deriving DecidableEq, Repr

/-- Extract a string from a cell; `none` models the `TypeError` Python
raises when a non-string reaches a string operation. -/
def CellVal.asStr : CellVal → Option String
  | .str s => some s
  | _ => none

/-- One row of `books.csv`, fields in column order. -/
structure BookRow where
  title : CellVal
  author : CellVal
  author_fn : CellVal
  author_mn : CellVal
  author_ln : CellVal
  length : CellVal
  times_read : CellVal
  rating : CellVal
  genre : CellVal
deriving DecidableEq, Repr

/-- The books catalog, one `BookRow` per CSV row. -/
abbrev BooksDB := List BookRow

/-- One row of `reading.csv`.  `Start`/`Finish` are dates as day
numbers (`none` = NaT), `Reading Time` an integer day count, `Rating`
an integer (`none` = NaN). -/
structure ReadingRow where
  title : Option String
  start : Option Int
  finish : Option Int
  reading_time : Option Int
  rating : Option Int
deriving DecidableEq, Repr

/-- The reading log: pandas index label paired with the row. -/
abbrev ReadingDB := List (Nat × ReadingRow)

/-- The responses to the `input()` prompts of `add_new_book`
(`Author First Name`, `Author Middle Name`, `Author Last Name`,
`Book Length (Pages)`, `Rating (1-5)`, `Book Genre`); `input()` always
returns a string and `add_new_book` stores them uncoerced. -/
structure NewBookInputs where
  author_fn : String
  author_mn : String
  author_ln : String
  length : String
  rating : String
  genre : String
deriving DecidableEq, Repr

/-- `generate_full_author`: joins the name parts with single spaces,
omitting the middle name when it is the empty string
(`' '.join([fn, ln])` / `' '.join([fn, mn, ln])`). -/
def generate_full_author (author_fn author_mn author_ln : String) : String :=
  if author_mn = "" then
    String.intercalate " " [author_fn, author_ln]
  else
    String.intercalate " " [author_fn, author_mn, author_ln]

/-- The row `add_new_book` builds from the prompt responses: `Author`
computed by `generate_full_author`, the other responses stored as the
raw strings `input()` returned, `Times Read` absent from the dict and
hence filled with NaN by `append`. -/
def new_book_row (book_title : String) (inp : NewBookInputs) : BookRow :=
  { title := .str book_title
    author := .str (generate_full_author inp.author_fn inp.author_mn
                      inp.author_ln)
    author_fn := .str inp.author_fn
    author_mn := .str inp.author_mn
    author_ln := .str inp.author_ln
    length := .str inp.length
    times_read := .na
    rating := .str inp.rating
    genre := .str inp.genre }

/-- `add_new_book`: appends the row built from the prompt responses
(`books_db.append(new_book, ignore_index=True)`). -/
def add_new_book (books_db : BooksDB) (book_title : String)
    (inp : NewBookInputs) : BooksDB :=
  books_db ++ [new_book_row book_title inp]

/-- `book_title in books_db['Title'].values`. -/
def hasBookTitle (books_db : BooksDB) (book_title : String) : Bool :=
  books_db.any (fun r => decide (r.title = CellVal.str book_title))

/-- `books_db.loc[books_db['Title'] == book_title, ...] = ...`:
apply `f` to every row whose `Title` equals `book_title`. -/
def mapOnTitle (books_db : BooksDB) (book_title : String)
    (f : BookRow → BookRow) : BooksDB :=
  books_db.map (fun r => if r.title = CellVal.str book_title then f r else r)

/-- `update_reading_time`: `pd.NaT` when either date is missing, else
`(finish - start).days + 1`. -/
def update_reading_time (start finish : Option Int) : Option Int :=
  match start, finish with
  | some s, some f => some (f - s + 1)
  | _, _ => none

end PhoebeShelves

namespace PhoebeShelves

/-- The rows of `reading_db` matching `Title == book_title` whose
`Finish` is not NaT, counted by `update_reading_count`. -/
def finished_count (reading_db : ReadingDB) (book_title : String) : Nat :=
  ((reading_db.map Prod.snd).filter
    (fun r => decide (r.title = some book_title) && r.finish.isSome)).length

/-- `update_reading_count`: counts finished reading entries for the
title, then writes that count into the `Times Read` field of the
catalog rows with that title, first creating the book via
`add_new_book` (interactive prompts `inp`) when the title is absent.
The `books.csv` read/write is modelled by the `books_db`
argument/result. -/
def update_reading_count (reading_db : ReadingDB) (books_db : BooksDB)
    (book_title : String) (inp : NewBookInputs) : BooksDB :=
  let read_cnt : Int := finished_count reading_db book_title
  if hasBookTitle books_db book_title then
    mapOnTitle books_db book_title
      (fun r => { r with times_read := .int read_cnt })
  else
    mapOnTitle (add_new_book books_db book_title inp) book_title
      (fun r => { r with times_read := .int read_cnt })

/-- The defined (non-NaN) `Rating` values of the reading-log rows
matching the title, in order (the values pandas `mean()` averages). -/
def rated_ratings (reading_db : ReadingDB) (book_title : String) : List Int :=
  (reading_db.map Prod.snd).filterMap
    (fun r => if r.title = some book_title then r.rating else none)

/-- `reading_db.loc[title_filter, 'Rating'].mean()`: NaN (`none`) when
no matching row has a defined rating, else the arithmetic mean. -/
def mean_rating (reading_db : ReadingDB) (book_title : String) : Option ℚ :=
  let rs := rated_ratings reading_db book_title
  if rs.isEmpty then none
  else some (((rs.map fun n => (n : ℚ)).sum) / rs.length)

/-- Round-half-to-even to the nearest integer, the tie-breaking used
by Python 3 `round`. -/
def halfEvenRound (q : ℚ) : Int :=
  let f := ⌊q⌋
  if q - f < 1/2 then f
  else if 1/2 < q - f then f + 1
  else if f % 2 = 0 then f else f + 1

/-- Python `round(q, 1)` on exact rationals. -/
def pyRound1 (q : ℚ) : ℚ :=
  (halfEvenRound (10 * q) : ℚ) / 10

/-- The cell `update_book_rating` writes: the average rounded to one
decimal when defined (`round(avg_rating, 1)` under the `pd.notna`
guard), NaN otherwise. -/
def avg_rating_cell (reading_db : ReadingDB) (book_title : String) : CellVal :=
  match mean_rating reading_db book_title with
  | some q => .rat (pyRound1 q)
  | none => .na

/-- `update_book_rating`: averages the defined ratings of the title in
the reading log (rounded to one decimal when defined, NaN otherwise)
and writes the result into the `Rating` field of the catalog rows with
that title, first creating the book via `add_new_book` when absent.
Note the write happens even when the average is NaN. -/
def update_book_rating (reading_db : ReadingDB) (books_db : BooksDB)
    (book_title : String) (inp : NewBookInputs) : BooksDB :=
  if hasBookTitle books_db book_title then
    mapOnTitle books_db book_title
      (fun r => { r with rating := avg_rating_cell reading_db book_title })
  else
    mapOnTitle (add_new_book books_db book_title inp) book_title
      (fun r => { r with rating := avg_rating_cell reading_db book_title })

end PhoebeShelves

namespace PhoebeShelves

/-- Total order on cells used by `sort_values` with
`na_position='last'` (the default): NaN sorts last; values of one kind
compare by their natural order.  The catalog columns sorted on hold a
single kind in practice (Python raises `TypeError` on mixed-type
comparisons); the cross-kind cases are completed by constructor rank to
make the relation total. -/
def cellCompare (a b : CellVal) : Ordering :=
  match a, b with
  | .na, .na => .eq
  | .na, _ => .gt
  | _, .na => .lt
  | .str s, .str t => compare s t
  | .int m, .int n => compare m n
  | .rat p, .rat q => if p < q then .lt else if q < p then .gt else .eq
  | .str _, _ => .lt
  | .int _, .str _ => .gt
  | .int _, .rat _ => .lt
  | .rat _, _ => .gt

/-- The row order of
`books_db.sort_values(by=['Author LN', 'Title'])`: by `Author LN`
ascending then `Title` ascending, missing values last. -/
def bookLE (a b : BookRow) : Bool :=
  match cellCompare a.author_ln b.author_ln with
  | .lt => true
  | .gt => false
  | .eq =>
    match cellCompare a.title b.title with
    | .gt => false
    | _ => true

/-- `books_db.sort_values(by=['Author LN', 'Title'])`, modelled as a
stable sort (pandas multi-column sorting uses the stable `lexsort`). -/
def sort_books (books_db : BooksDB) : BooksDB :=
  List.insertionSort (fun a b => bookLE a b = true) books_db

/-- Order on dates with `none` (NaT) last, one `sort_values` key. -/
def optDateCompare (a b : Option Int) : Ordering :=
  match a, b with
  | none, none => .eq
  | none, some _ => .gt
  | some _, none => .lt
  | some x, some y => compare x y

/-- The row order of
`reading_db.sort_values(['Finish', 'Start'], na_position='last')`. -/
def readingLE (a b : ReadingRow) : Bool :=
  match optDateCompare a.finish b.finish with
  | .lt => true
  | .gt => false
  | .eq =>
    match optDateCompare a.start b.start with
    | .gt => false
    | _ => true

/-- `reading_db.sort_values(['Finish', 'Start'], na_position='last')`:
rows reordered stably, index labels travelling with their rows. -/
def sort_reading (reading_db : ReadingDB) : ReadingDB :=
  List.insertionSort (fun p q => readingLE p.2 q.2 = true) reading_db

/-- The new value entered for one reading-log field in
`edit_reading_entry`, after the code's per-field coercion: `Title`
stays the raw input string, `Start`/`Finish` go through
`pd.to_datetime(...).date()` (a date, `none` = NaT), `Rating` through
`int(...) if new_value else np.nan`. -/
inductive REditVal where
  | vTitle (s : String)
  | vStart (d : Option Int)
  | vFinish (d : Option Int)
  | vRating (r : Option Int)
deriving DecidableEq, Repr

/-- Write one field of a reading-log row. -/
def applyREdit (r : ReadingRow) (e : REditVal) : ReadingRow :=
  match e with
  | .vTitle s => { r with title := some s }
  | .vStart d => { r with start := d }
  | .vFinish d => { r with finish := d }
  | .vRating v => { r with rating := v }

/-- A row whose every cell is missing, as pandas fills the remaining
columns when `.loc` enlargement creates a row. -/
def blankReadingRow : ReadingRow :=
  { title := none, start := none, finish := none, reading_time := none,
    rating := none }

/-- Whether `idx` is an index label of the frame. -/
def hasLabel (reading_db : ReadingDB) (idx : Nat) : Bool :=
  reading_db.any (fun p => p.1 == idx)

/-- `reading_db.loc[idx, field] = value`: updates the row with label
`idx` when it exists; otherwise pandas setting-with-enlargement
appends a new row with that label, the edited field set and every
other column NaN. -/
def locSetReading (reading_db : ReadingDB) (idx : Nat) (e : REditVal) :
    ReadingDB :=
  if hasLabel reading_db idx then
    reading_db.map (fun p => if p.1 = idx then (p.1, applyREdit p.2 e) else p)
  else
    reading_db ++ [(idx, applyREdit blankReadingRow e)]

/-- `reading_db.loc[idx]`: the row with index label `idx`. -/
def lookupRow (reading_db : ReadingDB) (idx : Nat) : Option ReadingRow :=
  (reading_db.find? (fun p => p.1 == idx)).map Prod.snd

/-- `add_reading_entry`: appends a row for the title with the prompted
dates and rating, `Reading Time` computed by `update_reading_time`;
`append(..., ignore_index=True)` renumbers the labels 0..n. -/
def add_reading_entry (reading_db : ReadingDB) (book_title : String)
    (start_date finish_date : Option Int) (rating : Option Int) :
    ReadingDB :=
  let new_entry : ReadingRow :=
    { title := some book_title
      start := start_date
      finish := finish_date
      reading_time := update_reading_time start_date finish_date
      rating := rating }
  ((reading_db.map Prod.snd) ++ [new_entry]).enum

/-- `edit_reading_entry`: writes the new value at label
`index_to_edit` via `.loc` (which enlarges the frame when the label is
absent — there is no validity check), then recomputes `Reading Time`
at that label from its current `Start` and `Finish`.  The `none`
branch of the match is unreachable: after `locSetReading` the label is
always present. -/
def edit_reading_entry (reading_db : ReadingDB) (index_to_edit : Nat)
    (e : REditVal) : ReadingDB :=
  let db1 := locSetReading reading_db index_to_edit e
  match lookupRow db1 index_to_edit with
  | some r =>
    let new_time := update_reading_time r.start r.finish
    db1.map (fun p =>
      if p.1 = index_to_edit then (p.1, { p.2 with reading_time := new_time })
      else p)
  | none => db1

/-- `remove_reading_entry`: `reading_db.drop(index_to_remove)` —
removes the row with that label, raising `KeyError` (`none`) when the
label is absent. -/
def remove_reading_entry (reading_db : ReadingDB) (index_to_remove : Nat) :
    Option ReadingDB :=
  if hasLabel reading_db index_to_remove then
    some (reading_db.filter (fun p => !(p.1 == index_to_remove)))
  else none

end PhoebeShelves

namespace PhoebeShelves

/-- A persisted CSV file: header row and data rows. -/
structure CsvFile where
  header : List String
  rows : List (List String)
deriving DecidableEq, Repr

/-- The column set of `books.csv` (`book_db_cols` in
`create_books_db`). -/
def book_db_cols : List String :=
  ["Title", "Author", "Author FN", "Author MN", "Author LN", "Length",
   "Times Read", "Rating", "Genre"]

/-- The column set of `reading.csv` (the `book_db_cols` list in
`create_reading_db`). -/
def reading_db_cols : List String :=
  ["Title", "Start", "Finish", "Reading Time", "Rating"]

/-- `create_books_db`: the empty books table written to disk. -/
def create_books_db : CsvFile :=
  { header := book_db_cols, rows := [] }

/-- `create_reading_db`: the empty reading table written to disk. -/
def create_reading_db : CsvFile :=
  { header := reading_db_cols, rows := [] }

/-- The data directory on disk: `books.csv` and `reading.csv`, each
present (`some`) or absent (`none`). -/
structure DataDir where
  books_csv : Option CsvFile
  reading_csv : Option CsvFile
deriving DecidableEq, Repr

/-- `create_databases`: for each of the two files — if it exists and
`force_overwrite` is not set, leave it alone; if it exists and
`force_overwrite` is set, or if it does not exist, write a fresh empty
table. -/
def create_databases (force_overwrite : Bool) (d : DataDir) : DataDir :=
  let books_csv :=
    if d.books_csv.isSome && !force_overwrite then d.books_csv
    else if d.books_csv.isSome && force_overwrite then some create_books_db
    else some create_books_db
  let reading_csv :=
    if d.reading_csv.isSome && !force_overwrite then d.reading_csv
    else if d.reading_csv.isSome && force_overwrite then some create_reading_db
    else some create_reading_db
  { books_csv := books_csv, reading_csv := reading_csv }

end PhoebeShelves

namespace PhoebeShelves

/-- The editable catalog fields of `edit_existing_book`
(its `prop_dict`). -/
inductive BookField where
  | bTitle
  | bAuthorFN
  | bAuthorMN
  | bAuthorLN
  | bLength
  | bRating
  | bGenre
deriving DecidableEq, Repr

/-- Digits of a decimal numeral to their value; `none` if empty or a
non-digit appears. -/
def digitsVal? (cs : List Char) : Option Nat :=
  if cs.isEmpty then none
  else
    cs.foldl
      (fun acc c =>
        match acc with
        | none => none
        | some n => if c.isDigit then some (n * 10 + (c.toNat - 48)) else none)
      (some 0)

/-- Python `int(s)` on the decimal-numeral grammar; `none` models the
`ValueError` on any other input. -/
def pyInt? (s : String) : Option Int :=
  match s.data with
  | '-' :: rest => (digitsVal? rest).map (fun n => -(n : Int))
  | '+' :: rest => (digitsVal? rest).map (fun n => (n : Int))
  | cs => (digitsVal? cs).map (fun n => (n : Int))

/-- Python `float(s)` on the plain decimal grammar (optional sign,
digits, optional fractional part), as an exact rational; `none` models
the `ValueError` on any other input. -/
def pyFloat? (s : String) : Option ℚ :=
  let signed :=
    match s.data with
    | '-' :: rest => ((-1 : ℚ), rest)
    | '+' :: rest => ((1 : ℚ), rest)
    | cs => ((1 : ℚ), cs)
  match (String.mk signed.2).splitOn "." with
  | [ip] => (digitsVal? ip.data).map (fun n => signed.1 * n)
  | [ip, fp] =>
    if ip.isEmpty && fp.isEmpty then none
    else
      let ipn := if ip.isEmpty then some 0 else digitsVal? ip.data
      let fpn := if fp.isEmpty then some 0 else digitsVal? fp.data
      match ipn, fpn with
      | some i, some f =>
        some (signed.1 * ((i : ℚ) + (f : ℚ) / ((10 : ℚ) ^ fp.length)))
      | _, _ => none
  | _ => none

/-- Write one catalog field of a book row. -/
def setBookField (r : BookRow) (f : BookField) (v : CellVal) : BookRow :=
  match f with
  | .bTitle => { r with title := v }
  | .bAuthorFN => { r with author_fn := v }
  | .bAuthorMN => { r with author_mn := v }
  | .bAuthorLN => { r with author_ln := v }
  | .bLength => { r with length := v }
  | .bRating => { r with rating := v }
  | .bGenre => { r with genre := v }

/-- `edit_existing_book`: coerces the raw input per field (`Length` by
`int(...)`, `Rating` by `float(...)`; coercion failure = `ValueError`
= `none`), writes it into the rows whose `Title` matches, and for a
name-part field recomputes `Author` from the first matching row's
current name parts (`.values[0]`), fixing only a NaN middle name to
the empty string; a missing first/last name reaching `' '.join`
(`TypeError`) and an empty selection (`IndexError` on `.values[0]`)
are modelled as `none`. -/
def edit_existing_book (books_db : BooksDB) (book_title : String)
    (prop_to_update : BookField) (new_value : String) : Option BooksDB :=
  let coerced : Option CellVal :=
    match prop_to_update with
    | .bLength => (pyInt? new_value).map CellVal.int
    | .bRating => (pyFloat? new_value).map CellVal.rat
    | _ => some (CellVal.str new_value)
  match coerced with
  | none => none
  | some v =>
    let db1 := mapOnTitle books_db book_title
      (fun r => setBookField r prop_to_update v)
    if prop_to_update = BookField.bAuthorFN ∨
        prop_to_update = BookField.bAuthorMN ∨
        prop_to_update = BookField.bAuthorLN then
      match db1.find? (fun r => decide (r.title = CellVal.str book_title)) with
      | none => none
      | some r0 =>
        match r0.author_fn.asStr,
            (if r0.author_mn = CellVal.na then some "" else r0.author_mn.asStr),
            r0.author_ln.asStr with
        | some fn, some mn, some ln =>
          some (mapOnTitle db1 book_title
            (fun r =>
              { r with author := .str (generate_full_author fn mn ln) }))
        | _, _, _ => none
    else
      some db1

/-- `remove_existing_book`: drops the rows whose `Title` matches. -/
def remove_existing_book (books_db : BooksDB) (book_title : String) :
    BooksDB :=
  books_db.filter (fun r => !(decide (r.title = CellVal.str book_title)))

/-- The Author value the three current name parts of a row determine,
per the recomputation of `edit_existing_book` (NaN middle name read as
empty; `none` when the first or last name is not a string). -/
def author_of_parts (r : BookRow) : Option String :=
  match r.author_fn.asStr,
      (if r.author_mn = CellVal.na then some "" else r.author_mn.asStr),
      r.author_ln.asStr with
  | some fn, some mn, some ln => some (generate_full_author fn mn ln)
  | _, _, _ => none

end PhoebeShelves

namespace PhoebeShelves

/-- The observable steps of one reading-log update session, in
program order. -/
inductive SEv where
  | evMutated
  | evSyncCount (t : String)
  | evSyncRating (t : String)
  | evSorted
  | evPersisted
deriving DecidableEq, Repr

/-- The responses to every prompt `update_reading_db` can issue:
the raw update-mode integer (read unvalidated by `int(input(...))`),
the title, the `[Y/N]` answer to switch-to-edit, the add-entry fields,
the edit index and value, the remove index, and the `add_new_book`
prompt responses each synchronizer call would use if the title were
missing from the catalog. -/
structure RSessionInput where
  update_mode : Int
  book_title : String
  switch_to_edit : String
  add_start : Option Int
  add_finish : Option Int
  add_rating : Option Int
  edit_index : Nat
  edit_val : REditVal
  remove_index : Nat
  stub_count : NewBookInputs
  stub_rating : NewBookInputs
deriving Repr

/-- The end state of a completed reading-log session: the persisted
`reading.csv`, the persisted `books.csv`, and the ordered trace of
observable steps. -/
structure RSessionResult where
  reading_file : ReadingDB
  books_file : BooksDB
  trace : List SEv
deriving DecidableEq, Repr

/-- `update_reading_db`: one interactive reading-log session over the
freshly loaded log `reading_db` and the on-disk catalog `books_db`.
Mode 1 adds (or, when the title already has entries and the user
answers Y, edits instead — there `reading_rb = edit_reading_entry(...)`
binds a new name, but `.loc` assignment mutates the frame in place, so
`reading_db` aliases the edited frame in the subsequent calls); mode 2
edits; any other mode removes, where `drop` raises `KeyError` on a bad
label and the session dies before persisting anything (`none`).  Every
completed path runs `update_reading_count` then `update_book_rating`
on the mutated log, then sorts and persists it. -/
def update_reading_db (inp : RSessionInput) (books_db : BooksDB)
    (reading_db : ReadingDB) : Option RSessionResult :=
  if inp.update_mode = 1 then
    if (reading_db.map Prod.snd).any
        (fun r => decide (r.title = some inp.book_title)) then
      if inp.switch_to_edit = "Y" ∨ inp.switch_to_edit = "y" then
        let rdb1 := edit_reading_entry reading_db inp.edit_index inp.edit_val
        let b1 := update_reading_count rdb1 books_db inp.book_title
          inp.stub_count
        let b2 := update_book_rating rdb1 b1 inp.book_title inp.stub_rating
        some { reading_file := sort_reading rdb1
               books_file := b2
               trace := [SEv.evMutated, SEv.evSyncCount inp.book_title,
                         SEv.evSyncRating inp.book_title, SEv.evSorted,
                         SEv.evPersisted] }
      else
        let rdb1 := add_reading_entry reading_db inp.book_title inp.add_start
          inp.add_finish inp.add_rating
        let b1 := update_reading_count rdb1 books_db inp.book_title
          inp.stub_count
        let b2 := update_book_rating rdb1 b1 inp.book_title inp.stub_rating
        some { reading_file := sort_reading rdb1
               books_file := b2
               trace := [SEv.evMutated, SEv.evSyncCount inp.book_title,
                         SEv.evSyncRating inp.book_title, SEv.evSorted,
                         SEv.evPersisted] }
    else
      let rdb1 := add_reading_entry reading_db inp.book_title inp.add_start
        inp.add_finish inp.add_rating
      let b1 := update_reading_count rdb1 books_db inp.book_title
        inp.stub_count
      let b2 := update_book_rating rdb1 b1 inp.book_title inp.stub_rating
      some { reading_file := sort_reading rdb1
             books_file := b2
             trace := [SEv.evMutated, SEv.evSyncCount inp.book_title,
                       SEv.evSyncRating inp.book_title, SEv.evSorted,
                       SEv.evPersisted] }
  else if inp.update_mode = 2 then
    let rdb1 := edit_reading_entry reading_db inp.edit_index inp.edit_val
    let b1 := update_reading_count rdb1 books_db inp.book_title inp.stub_count
    let b2 := update_book_rating rdb1 b1 inp.book_title inp.stub_rating
    some { reading_file := sort_reading rdb1
           books_file := b2
           trace := [SEv.evMutated, SEv.evSyncCount inp.book_title,
                     SEv.evSyncRating inp.book_title, SEv.evSorted,
                     SEv.evPersisted] }
  else
    match remove_reading_entry reading_db inp.remove_index with
    | none => none
    | some rdb1 =>
      let b1 := update_reading_count rdb1 books_db inp.book_title
        inp.stub_count
      let b2 := update_book_rating rdb1 b1 inp.book_title inp.stub_rating
      some { reading_file := sort_reading rdb1
             books_file := b2
             trace := [SEv.evMutated, SEv.evSyncCount inp.book_title,
                       SEv.evSyncRating inp.book_title, SEv.evSorted,
                       SEv.evPersisted] }

end PhoebeShelves

namespace PhoebeShelves

/-- Prompt responses with every field left blank. -/
def stub0 : NewBookInputs :=
  { author_fn := "", author_mn := "", author_ln := "", length := "",
    rating := "", genre := "" }

/-- Prompt responses naming an author, for concrete runs. -/
def stubFH : NewBookInputs :=
  { author_fn := "Frank", author_mn := "", author_ln := "Herbert",
    length := "", rating := "", genre := "" }

/-- A two-entry reading log for one title: one finished rated read,
one open unrated read. -/
def w_rdb : ReadingDB :=
  [(0, { title := some "Dune", start := some 0, finish := some 9,
         reading_time := some 10, rating := some 5 }),
   (1, { title := some "Dune", start := none, finish := none,
         reading_time := none, rating := none })]

/-- A one-book catalog holding that title. -/
def w_bdb : BooksDB :=
  [{ title := .str "Dune", author := .str "Frank Herbert",
     author_fn := .str "Frank", author_mn := .str "",
     author_ln := .str "Herbert", length := .na, times_read := .int 0,
     rating := .na, genre := .na }]

/-- A one-row reading log with label 0, for concrete runs. -/
def w_rdb1 : ReadingDB :=
  [(0, { title := some "Dune", start := some 0, finish := some 4,
         reading_time := some 5, rating := none })]

/-- A one-book catalog whose middle-name cell is NaN, for concrete
catalog edits. -/
def w_bdb_mn : BooksDB :=
  [{ title := .str "Dune", author := .str "Frank Herbert",
     author_fn := .str "Frank", author_mn := .na,
     author_ln := .str "Herbert", length := .na, times_read := .na,
     rating := .na, genre := .na }]

/-- Session prompt responses: edit mode, rating edit at label 0. -/
def w_sess_inp : RSessionInput :=
  { update_mode := 2, book_title := "Dune", switch_to_edit := "N",
    add_start := none, add_finish := none, add_rating := none,
    edit_index := 0, edit_val := REditVal.vRating (some 4),
    remove_index := 0, stub_count := stub0, stub_rating := stub0 }

/-- A data directory holding only a books file with some content. -/
def w_csv : CsvFile := { header := ["X"], rows := [["payload"]] }

/-- A data directory with an existing books file and no reading
file. -/
def w_dir : DataDir := { books_csv := some w_csv, reading_csv := none }

end PhoebeShelves

namespace PhoebeShelves

/-- Claim C5: for Start ≤ Finish, `update_reading_time` returns
(Finish − Start in days) + 1, and for all inputs the result is
undefined iff Start or Finish is undefined. -/
theorem C5_reading_time :
    (∀ s f : Int, s ≤ f →
      update_reading_time (some s) (some f) = some (f - s + 1)) ∧
    (∀ s f : Option Int,
      update_reading_time s f = none ↔ s = none ∨ f = none) := by
  constructor
  · intro s f _
    rfl
  · intro s f
    cases s <;> cases f <;> simp [update_reading_time]

/-- Witness for C5 at a concrete pair of dates. -/
theorem C5_reading_time_witness :
    update_reading_time (some 1) (some 5) = some 5 :=
  C5_reading_time.1 1 5 (by decide)

/-- Claim C8: the catalog persistence sort is idempotent — sorting a
catalog already in (Author LN, Title, missing-last) order returns it
unchanged. -/
theorem C8_sort_books_idempotent (books_db : BooksDB)
    (h : List.Sorted (fun a b => bookLE a b = true) books_db) :
    sort_books books_db = books_db :=
  h.insertionSort_eq

/-- Witness for C8 at a concrete sorted two-row catalog. -/
theorem C8_sort_books_idempotent_witness :
    sort_books
      [{ title := .str "Dune", author := .str "Frank Herbert",
         author_fn := .str "Frank", author_mn := .str "",
         author_ln := .str "Herbert", length := .na, times_read := .na,
         rating := .na, genre := .na },
       { title := .str "Solaris", author := .str "Stanislaw Lem",
         author_fn := .str "Stanislaw", author_mn := .str "",
         author_ln := .str "Lem", length := .na, times_read := .na,
         rating := .na, genre := .na }] =
      [{ title := .str "Dune", author := .str "Frank Herbert",
         author_fn := .str "Frank", author_mn := .str "",
         author_ln := .str "Herbert", length := .na, times_read := .na,
         rating := .na, genre := .na },
       { title := .str "Solaris", author := .str "Stanislaw Lem",
         author_fn := .str "Stanislaw", author_mn := .str "",
         author_ln := .str "Lem", length := .na, times_read := .na,
         rating := .na, genre := .na }] :=
  C8_sort_books_idempotent _ (by decide)

/-- After a masked write of the `Times Read` column, every row with
the matching title holds the written value. -/
theorem times_read_mapOnTitle (books_db : BooksDB) (t : String) (v : CellVal) :
    ∀ row ∈ mapOnTitle books_db t (fun r => { r with times_read := v }),
      row.title = CellVal.str t → row.times_read = v := by
  intro row hrow ht
  simp only [mapOnTitle, List.mem_map] at hrow
  obtain ⟨r, _, rfl⟩ := hrow
  by_cases h : r.title = CellVal.str t
  · rw [if_pos h]
  · rw [if_neg h] at ht
    exact absurd ht h

/-- After a masked write of the `Rating` column, every row with the
matching title holds the written value. -/
theorem rating_mapOnTitle (books_db : BooksDB) (t : String) (v : CellVal) :
    ∀ row ∈ mapOnTitle books_db t (fun r => { r with rating := v }),
      row.title = CellVal.str t → row.rating = v := by
  intro row hrow ht
  simp only [mapOnTitle, List.mem_map] at hrow
  obtain ⟨r, _, rfl⟩ := hrow
  by_cases h : r.title = CellVal.str t
  · rw [if_pos h]
  · rw [if_neg h] at ht
    exact absurd ht h

/-- A masked write through a title-preserving row function keeps a
matching row present. -/
theorem exists_title_mapOnTitle (books_db : BooksDB) (t : String)
    (f : BookRow → BookRow) (hpres : ∀ r, (f r).title = r.title)
    (r : BookRow) (hr : r ∈ books_db) (ht : r.title = CellVal.str t) :
    ∃ row ∈ mapOnTitle books_db t f, row.title = CellVal.str t := by
  refine ⟨if r.title = CellVal.str t then f r else r,
    List.mem_map_of_mem _ hr, ?_⟩
  rw [if_pos ht, hpres, ht]

/-- A positive `hasBookTitle` check yields a matching row. -/
theorem exists_of_hasBookTitle (books_db : BooksDB) (t : String)
    (h : hasBookTitle books_db t = true) :
    ∃ r ∈ books_db, r.title = CellVal.str t := by
  obtain ⟨r, hr, hrt⟩ := List.any_eq_true.1 h
  exact ⟨r, hr, of_decide_eq_true hrt⟩

/-- The freshly added row is a member of the extended catalog. -/
theorem new_book_row_mem (books_db : BooksDB) (t : String)
    (inp : NewBookInputs) :
    new_book_row t inp ∈ add_new_book books_db t inp :=
  List.mem_append_right _ (List.mem_singleton.2 rfl)

/-- Claim C1: after `update_reading_count` for title T, every catalog
row titled T carries `Times Read` equal to the number of reading-log
rows with Title T and a defined Finish date, and such a catalog row
exists. -/
theorem C1_times_read_sync (reading_db : ReadingDB) (books_db : BooksDB)
    (t : String) (inp : NewBookInputs) :
    (∀ row ∈ update_reading_count reading_db books_db t inp,
      row.title = CellVal.str t →
      row.times_read = CellVal.int (finished_count reading_db t)) ∧
    (∃ row ∈ update_reading_count reading_db books_db t inp,
      row.title = CellVal.str t) := by
  constructor
  · intro row hrow ht
    unfold update_reading_count at hrow
    split at hrow
    · exact times_read_mapOnTitle _ t _ row hrow ht
    · exact times_read_mapOnTitle _ t _ row hrow ht
  · unfold update_reading_count
    split
    · next h =>
      obtain ⟨r, hr, hrt⟩ := exists_of_hasBookTitle books_db t h
      exact exists_title_mapOnTitle _ t _ (fun _ => rfl) r hr hrt
    · exact exists_title_mapOnTitle _ t _ (fun _ => rfl) _
        (new_book_row_mem books_db t inp) rfl

/-- Witness for C1: on a log with one finished and one unfinished
"Dune" entry, the catalog row ends with `Times Read` 1. -/
theorem C1_times_read_sync_witness :
    ({ title := .str "Dune", author := .str "Frank Herbert",
       author_fn := .str "Frank", author_mn := .str "",
       author_ln := .str "Herbert", length := .na, times_read := .int 1,
       rating := .na, genre := .na } : BookRow).times_read =
      CellVal.int (finished_count w_rdb "Dune") :=
  (C1_times_read_sync w_rdb w_bdb "Dune" stub0).1 _ (by decide) rfl

/-- With at least one defined rating, the pandas mean is the sum of
the defined ratings over their count. -/
theorem mean_rating_eq_some (reading_db : ReadingDB) (t : String)
    (hne : rated_ratings reading_db t ≠ []) :
    mean_rating reading_db t =
      some ((((rated_ratings reading_db t).map fun n => (n : ℚ)).sum) /
        (rated_ratings reading_db t).length) := by
  cases h : rated_ratings reading_db t with
  | nil => exact absurd h hne
  | cons a l => simp [mean_rating, h]

/-- With no defined rating, the pandas mean is NaN. -/
theorem mean_rating_eq_none (reading_db : ReadingDB) (t : String)
    (hnil : rated_ratings reading_db t = []) :
    mean_rating reading_db t = none := by
  simp [mean_rating, hnil]

/-- Claim C2: after `update_book_rating` for title T, every catalog
row titled T carries the mean of the defined log ratings for T rounded
to one decimal when at least one such rating exists, and NaN
otherwise; a row titled T exists. -/
theorem C2_rating_sync (reading_db : ReadingDB) (books_db : BooksDB)
    (t : String) (inp : NewBookInputs) :
    (rated_ratings reading_db t ≠ [] →
      ∀ row ∈ update_book_rating reading_db books_db t inp,
        row.title = CellVal.str t →
        row.rating = CellVal.rat (pyRound1
          ((((rated_ratings reading_db t).map fun n => (n : ℚ)).sum) /
            (rated_ratings reading_db t).length))) ∧
    (rated_ratings reading_db t = [] →
      ∀ row ∈ update_book_rating reading_db books_db t inp,
        row.title = CellVal.str t → row.rating = CellVal.na) ∧
    (∃ row ∈ update_book_rating reading_db books_db t inp,
      row.title = CellVal.str t) := by
  refine ⟨?_, ?_, ?_⟩
  · intro hne row hrow ht
    unfold update_book_rating at hrow
    have hv : row.rating = avg_rating_cell reading_db t := by
      split at hrow
      · exact rating_mapOnTitle _ t _ row hrow ht
      · exact rating_mapOnTitle _ t _ row hrow ht
    rw [hv]
    unfold avg_rating_cell
    rw [mean_rating_eq_some reading_db t hne]
  · intro hnil row hrow ht
    unfold update_book_rating at hrow
    have hv : row.rating = avg_rating_cell reading_db t := by
      split at hrow
      · exact rating_mapOnTitle _ t _ row hrow ht
      · exact rating_mapOnTitle _ t _ row hrow ht
    rw [hv]
    unfold avg_rating_cell
    rw [mean_rating_eq_none reading_db t hnil]
  · unfold update_book_rating
    split
    · next h =>
      obtain ⟨r, hr, hrt⟩ := exists_of_hasBookTitle books_db t h
      exact exists_title_mapOnTitle _ t _ (fun _ => rfl) r hr hrt
    · exact exists_title_mapOnTitle _ t _ (fun _ => rfl) _
        (new_book_row_mem books_db t inp) rfl

/-- Witness for C2: on a log whose only rated "Dune" entry is a 5, the
catalog row ends with rating 5.0. -/
theorem C2_rating_sync_witness :
    ({ title := .str "Dune", author := .str "Frank Herbert",
       author_fn := .str "Frank", author_mn := .str "",
       author_ln := .str "Herbert", length := .na, times_read := .int 0,
       rating := .rat 5, genre := .na } : BookRow).rating =
      CellVal.rat (pyRound1
        ((((rated_ratings w_rdb "Dune").map fun n => (n : ℚ)).sum) /
          (rated_ratings w_rdb "Dune").length)) :=
  (C2_rating_sync w_rdb w_bdb "Dune" stub0).1 (by decide) _
    (by
      have hr : rated_ratings w_rdb "Dune" = [5] := by decide
      have h1 : mean_rating w_rdb "Dune" = some 5 := by
        unfold mean_rating
        rw [hr]
        norm_num
      have h2 : avg_rating_cell w_rdb "Dune" = CellVal.rat 5 := by
        rw [avg_rating_cell, h1]
        norm_num [pyRound1, halfEvenRound]
      simp [update_book_rating, hasBookTitle, w_bdb, mapOnTitle, h2])
    rfl

/-- Counterexample to C3 as stated: when the synchronizer runs for a
title absent from the catalog, the record it creates does NOT have
every non-Title field undefined — `add_new_book` fills the fields from
interactive prompts and derives `Author`, so with prompted author
parts "Frank"/"Herbert" the created record has defined author
fields. -/
theorem C3_stub_counterexample :
    ¬ (∀ row ∈ update_reading_count w_rdb1 [] "Dune" stubFH,
        row.title = CellVal.str "Dune" →
        row.author = CellVal.na ∧ row.author_fn = CellVal.na ∧
        row.author_mn = CellVal.na ∧ row.author_ln = CellVal.na ∧
        row.length = CellVal.na ∧ row.rating = CellVal.na ∧
        row.genre = CellVal.na) := by
  decide

/-- Claim C3 amended: for a title absent from the catalog, the
synchronizer pass first creates a new record via the interactive
`add_new_book` flow — Title set to the title, the other fields taken
from the prompt responses (`Author` derived from the prompted name
parts), `Times Read` initially NaN — and only then writes the derived
field, so the title is present in the catalog after either
synchronizer operation. -/
theorem C3_stub_amended (reading_db : ReadingDB) (books_db : BooksDB)
    (t : String) (inp : NewBookInputs)
    (habs : hasBookTitle books_db t = false) :
    (∃ row ∈ update_reading_count reading_db books_db t inp,
      row.title = CellVal.str t ∧
      row.times_read = CellVal.int (finished_count reading_db t) ∧
      row.author = CellVal.str (generate_full_author inp.author_fn
        inp.author_mn inp.author_ln) ∧
      row.author_fn = CellVal.str inp.author_fn ∧
      row.author_mn = CellVal.str inp.author_mn ∧
      row.author_ln = CellVal.str inp.author_ln ∧
      row.length = CellVal.str inp.length ∧
      row.rating = CellVal.str inp.rating ∧
      row.genre = CellVal.str inp.genre) ∧
    (∃ row ∈ update_book_rating reading_db books_db t inp,
      row.title = CellVal.str t ∧
      row.rating = avg_rating_cell reading_db t ∧
      row.author = CellVal.str (generate_full_author inp.author_fn
        inp.author_mn inp.author_ln) ∧
      row.author_fn = CellVal.str inp.author_fn ∧
      row.author_mn = CellVal.str inp.author_mn ∧
      row.author_ln = CellVal.str inp.author_ln) := by
  have hneg : ¬ hasBookTitle books_db t = true := by
    rw [habs]
    exact Bool.false_ne_true
  have hcond : (new_book_row t inp).title = CellVal.str t := rfl
  constructor
  · unfold update_reading_count
    rw [if_neg hneg]
    refine ⟨if (new_book_row t inp).title = CellVal.str t
        then { new_book_row t inp with
               times_read := CellVal.int (finished_count reading_db t) }
        else new_book_row t inp,
      List.mem_map_of_mem _ (new_book_row_mem books_db t inp), ?_⟩
    rw [if_pos hcond]
    exact ⟨rfl, rfl, rfl, rfl, rfl, rfl, rfl, rfl, rfl⟩
  · unfold update_book_rating
    rw [if_neg hneg]
    refine ⟨if (new_book_row t inp).title = CellVal.str t
        then { new_book_row t inp with
               rating := avg_rating_cell reading_db t }
        else new_book_row t inp,
      List.mem_map_of_mem _ (new_book_row_mem books_db t inp), ?_⟩
    rw [if_pos hcond]
    exact ⟨rfl, rfl, rfl, rfl, rfl, rfl⟩

/-- Witness for the amended C3: a concrete absent title ends up
present with the prompted author fields after the count pass. -/
theorem C3_stub_amended_witness :
    (update_reading_count w_rdb1 [] "Dune" stubFH).any
      (fun row => decide (row.title = CellVal.str "Dune") &&
        decide (row.author_fn = CellVal.str "Frank") &&
        decide (row.times_read =
          CellVal.int (finished_count w_rdb1 "Dune"))) = true := by
  obtain ⟨⟨row, hmem, h1, h2, _, h4, _⟩, _⟩ :=
    C3_stub_amended w_rdb1 [] "Dune" stubFH rfl
  refine List.any_eq_true.2 ⟨row, hmem, ?_⟩
  rw [h1, h2, h4]
  decide

/-- Claim C4 is violated by the code at this input (`code_bug`): on a
one-row log whose only label is 0, editing at the invalid position 1
does not fail — pandas `.loc` setting-with-enlargement appends a new
row with the edited field set and everything else missing — while
removing at position 1 does raise (`KeyError`), leaving the log
unchanged.  The code even carries a TODO about catching unacceptable
inputs. -/
theorem C4_invalid_position_bug :
    (edit_reading_entry w_rdb1 1 (REditVal.vRating (some 5))).length = 2 ∧
    lookupRow (edit_reading_entry w_rdb1 1 (REditVal.vRating (some 5))) 1 =
      some { title := none, start := none, finish := none,
             reading_time := none, rating := some 5 } ∧
    remove_reading_entry w_rdb1 1 = none := by
  decide

/-- A find? hit in a list with at most one satisfying element is the
only satisfying element. -/
theorem unique_of_countP_le_one {α : Type} {p : α → Bool} {r0 : α} :
    ∀ {l : List α}, l.countP p ≤ 1 → l.find? p = some r0 →
      ∀ r ∈ l, p r = true → r = r0 := by
  intro l
  induction l with
  | nil =>
    intro _ hf
    simp [List.find?] at hf
  | cons a l ih =>
    intro hc hf r hr hp
    by_cases ha : p a = true
    · rw [List.find?_cons_of_pos _ ha] at hf
      cases hf
      rcases List.mem_cons.1 hr with rfl | hrl
      · rfl
      · exfalso
        rw [List.countP_cons_of_pos _ _ ha] at hc
        have hzero : l.countP p = 0 := by omega
        have := List.countP_eq_zero.1 hzero r hrl
        exact this hp
    · rw [List.find?_cons_of_neg _ ha] at hf
      rcases List.mem_cons.1 hr with rfl | hrl
      · exact absurd hp ha
      · rw [List.countP_cons_of_neg _ _ ha] at hc
        exact ih hc hf r hrl hp

/-- A masked write through a title-preserving row function does not
change how many rows match the title. -/
theorem countP_mapOnTitle (books_db : BooksDB) (t : String)
    (f : BookRow → BookRow) (hpres : ∀ r, (f r).title = r.title) :
    (mapOnTitle books_db t f).countP
        (fun r => decide (r.title = CellVal.str t)) =
      books_db.countP (fun r => decide (r.title = CellVal.str t)) := by
  unfold mapOnTitle
  rw [List.countP_map]
  apply List.countP_congr
  intro r _
  by_cases h : r.title = CellVal.str t
  · simp [Function.comp, h, hpres]
  · simp [Function.comp, h]

/-- Overwriting only the `Author` cell does not change the author
value determined by the three name parts. -/
theorem author_of_parts_set_author (r : BookRow) (a : CellVal) :
    author_of_parts { r with author := a } = author_of_parts r := rfl

/-- Claim C6: `generate_full_author` produces "First Last" for an
empty middle name and "First Middle Last" otherwise; and after a
catalog edit of any author name part (on a catalog where the title is
unique), every row with that title stores an `Author` equal to that
function of its three current name parts (a NaN middle name read as
empty). -/
theorem C6_author_consistency :
    (∀ fn mn ln : String,
      generate_full_author fn mn ln =
        if mn = "" then fn ++ " " ++ ln
        else fn ++ " " ++ mn ++ " " ++ ln) ∧
    (∀ (books_db : BooksDB) (t : String) (field : BookField) (v : String)
        (db' : BooksDB),
      (field = BookField.bAuthorFN ∨ field = BookField.bAuthorMN ∨
        field = BookField.bAuthorLN) →
      books_db.countP (fun r => decide (r.title = CellVal.str t)) ≤ 1 →
      edit_existing_book books_db t field v = some db' →
      ∀ row ∈ db', row.title = CellVal.str t →
        row.author.asStr = author_of_parts row) := by
  constructor
  · intro fn mn ln
    unfold generate_full_author
    by_cases h : mn = ""
    · rw [if_pos h, if_pos h]
      rfl
    · rw [if_neg h, if_neg h]
      rfl
  · intro books_db t field v db' hf hu h
    have hpres : ∀ r, (setBookField r field (CellVal.str v)).title = r.title := by
      intro r
      rcases hf with rfl | rfl | rfl <;> rfl
    have hcond : field = BookField.bAuthorFN ∨ field = BookField.bAuthorMN ∨
        field = BookField.bAuthorLN := hf
    have hcoerced :
        edit_existing_book books_db t field v =
          (match (mapOnTitle books_db t
              (fun r => setBookField r field (CellVal.str v))).find?
              (fun r => decide (r.title = CellVal.str t)) with
          | none => none
          | some r0 =>
            match r0.author_fn.asStr,
                (if r0.author_mn = CellVal.na then some ""
                 else r0.author_mn.asStr),
                r0.author_ln.asStr with
            | some fn, some mn, some ln =>
              some (mapOnTitle (mapOnTitle books_db t
                  (fun r => setBookField r field (CellVal.str v))) t
                (fun r =>
                  { r with
                    author := CellVal.str (generate_full_author fn mn ln) }))
            | _, _, _ => none) := by
      rcases hcond with rfl | rfl | rfl <;>
        simp [edit_existing_book]
    rw [hcoerced] at h
    have hu1 : (mapOnTitle books_db t
        (fun r => setBookField r field (CellVal.str v))).countP
        (fun r => decide (r.title = CellVal.str t)) ≤ 1 := by
      rw [countP_mapOnTitle books_db t _ hpres]
      exact hu
    split at h
    · cases h
    · next rstar hfind =>
      split at h
      · next fn mn ln h1 h2 h3 =>
        cases h
        intro row hrow ht
        simp only [mapOnTitle, List.mem_map] at hrow
        obtain ⟨r, hr, rfl⟩ := hrow
        by_cases hp : r.title = CellVal.str t
        · rw [if_pos hp]
          have hrmem : r ∈ mapOnTitle books_db t
              (fun r => setBookField r field (CellVal.str v)) :=
            List.mem_map.2 hr
          have hr0 : r = rstar :=
            unique_of_countP_le_one hu1 hfind r hrmem (decide_eq_true hp)
          subst hr0
          rw [author_of_parts_set_author]
          unfold author_of_parts
          rw [h1, h2, h3]
          rfl
        · rw [if_neg hp] at ht
          exact absurd ht hp
      · cases h

/-- Witness for C6: editing the NaN middle name of a one-book catalog
leaves every matching row with an Author consistent with its current
name parts. -/
theorem C6_author_consistency_witness :
    ((edit_existing_book w_bdb_mn "Dune" BookField.bAuthorMN
        "Patrick").getD []).all
      (fun row => !(decide (row.title = CellVal.str "Dune")) ||
        decide (row.author.asStr = author_of_parts row)) = true := by
  have h := C6_author_consistency.2 w_bdb_mn "Dune" BookField.bAuthorMN
    "Patrick"
    ((edit_existing_book w_bdb_mn "Dune" BookField.bAuthorMN "Patrick").getD
      [])
    (Or.inr (Or.inl rfl)) (by decide) rfl
  refine List.all_eq_true.2 ?_
  intro row hrow
  by_cases ht : row.title = CellVal.str "Dune"
  · have hc := h row hrow ht
    simp [hc]
  · simp [ht]

/-- Claim C7: every completed reading-log update session mutates the
log, then runs `update_reading_count` and `update_book_rating` for the
affected title, then sorts, then persists — in that order on every
path; a session that dies early (`KeyError` on remove) persists
nothing, so no path persists a mutated log without the consistency
pass. -/
theorem C7_sync_pass (inp : RSessionInput) (books_db : BooksDB)
    (reading_db : ReadingDB) (res : RSessionResult)
    (h : update_reading_db inp books_db reading_db = some res) :
    res.trace = [SEv.evMutated, SEv.evSyncCount inp.book_title,
      SEv.evSyncRating inp.book_title, SEv.evSorted, SEv.evPersisted] := by
  unfold update_reading_db at h
  split at h
  · split at h
    · split at h
      · cases h
        rfl
      · cases h
        rfl
    · cases h
      rfl
  · split at h
    · cases h
      rfl
    · split at h
      · cases h
      · cases h
        rfl

/-- Witness for C7 at a concrete edit session over empty stores. -/
theorem C7_sync_pass_witness :
    ((update_reading_db w_sess_inp [] []).getD
        { reading_file := [], books_file := [], trace := [] }).trace =
      [SEv.evMutated, SEv.evSyncCount "Dune", SEv.evSyncRating "Dune",
       SEv.evSorted, SEv.evPersisted] :=
  C7_sync_pass w_sess_inp [] []
    ((update_reading_db w_sess_inp [] []).getD
      { reading_file := [], books_file := [], trace := [] }) rfl

/-- Claim C9: without the force flag `create_databases` leaves any
existing storage file untouched and is idempotent; with the flag it
replaces both files with empty tables carrying exactly the defined
column sets. -/
theorem C9_create_databases (d : DataDir) :
    (∀ f, d.books_csv = some f →
      (create_databases false d).books_csv = some f) ∧
    (∀ f, d.reading_csv = some f →
      (create_databases false d).reading_csv = some f) ∧
    create_databases false (create_databases false d) =
      create_databases false d ∧
    (create_databases true d).books_csv =
      some { header := book_db_cols, rows := [] } ∧
    (create_databases true d).reading_csv =
      some { header := reading_db_cols, rows := [] } := by
  obtain ⟨b, r⟩ := d
  cases b <;> cases r <;>
    simp [create_databases, create_books_db, create_reading_db]

/-- Witness for C9: an existing books file survives a run without the
force flag. -/
theorem C9_create_databases_witness :
    (create_databases false w_dir).books_csv = some w_csv :=
  (C9_create_databases w_dir).1 w_csv rfl

/-- A masked in-place update of the row at one index label commutes
with looking that label up. -/
theorem lookupRow_map_label (reading_db : ReadingDB) (idx : Nat)
    (g : ReadingRow → ReadingRow) :
    lookupRow (reading_db.map
      (fun p => if p.1 = idx then (p.1, g p.2) else p)) idx =
      (lookupRow reading_db idx).map g := by
  induction reading_db with
  | nil => rfl
  | cons a l ih =>
    by_cases h : a.1 = idx
    · unfold lookupRow
      simp [List.find?_cons, h]
    · have hb : (a.1 == idx) = false := by simp [h]
      unfold lookupRow
      simp only [List.map_cons, if_neg h, List.find?_cons, hb,
        Bool.false_eq_true, if_false]
      exact ih

/-- Claim C10: after `edit_reading_entry` at a valid position, the
edited row's `Reading Time` equals `update_reading_time` of its
current `Start` and `Finish` — whatever field was edited. -/
theorem C10_edit_recomputes_reading_time (reading_db : ReadingDB)
    (idx : Nat) (e : REditVal) (row : ReadingRow)
    (_hvalid : hasLabel reading_db idx = true)
    (h : lookupRow (edit_reading_entry reading_db idx e) idx = some row) :
    row.reading_time = update_reading_time row.start row.finish := by
  simp only [edit_reading_entry] at h
  split at h
  · next r heq =>
    rw [lookupRow_map_label (locSetReading reading_db idx e) idx
      (fun r2 =>
        { r2 with reading_time := update_reading_time r.start r.finish }),
      heq] at h
    cases h
    rfl
  · next heq =>
    rw [heq] at h
    cases h

/-- Witness for C10: editing `Finish` at label 0 of a one-row log
leaves `Reading Time` recomputed from the new dates. -/
theorem C10_edit_recomputes_reading_time_witness :
    ({ title := some "Dune", start := some 0, finish := some 2,
       reading_time := some 3, rating := none } : ReadingRow).reading_time =
      update_reading_time (some 0) (some 2) :=
  C10_edit_recomputes_reading_time w_rdb1 0 (REditVal.vFinish (some 2))
    { title := some "Dune", start := some 0, finish := some 2,
      reading_time := some 3, rating := none } rfl rfl

end PhoebeShelves
